import Mathlib

/-!
Verification of the spin-plugin-azure command-line orchestrator.

The Go sources are shallowly embedded: every `exec.Command` invocation is
modelled as a query to a deterministic oracle `Env : Cmd → ExecOutcome`
(the external collaborators: az, kubectl, helm, sleep), and every embedded
operation additionally returns the ordered list of commands it issued.
The local configuration store (a JSON file under the per-user config
directory) is modelled by the `FS` state together with explicit
marshalling to an association list of the JSON object's string fields.
-/

namespace SpinAzure

/-- An external command invocation: the program name followed by its
arguments, exactly as passed to `exec.Command`. -/
abbrev Cmd := List String

/-- Outcome of running one external command via `CombinedOutput`:
`errText = some e` models a non-nil error whose rendered text is `e`
(for example a non-zero exit status), and `output` is the captured
combined stdout and stderr. -/
structure ExecOutcome where
  errText : Option String
  output : String
deriving DecidableEq, Repr

/-- The external collaborators as a deterministic oracle from the argv of
a command to its outcome. -/
abbrev Env := Cmd → ExecOutcome

/-- Go `[]byte`/`list` check used to model `strings.HasPrefix` on rune
lists: is the first list a prefix of the second. -/
def listPrefixOf : List Char → List Char → Bool
  | [], _ => true
  | _ :: _, [] => false
  | a :: as, b :: bs => a == b && listPrefixOf as bs

/-- Substring search on rune lists, modelling Go `strings.Contains`. -/
def listContainsSub (hay needle : List Char) : Bool :=
  match hay with
  | [] => needle.isEmpty
  | _ :: t => listPrefixOf needle hay || listContainsSub t needle

/-- Model of Go `strings.Contains hay needle`. -/
def strContains (hay needle : String) : Bool :=
  listContainsSub hay.data needle.data

/-- ASCII whitespace test used to model `strings.TrimSpace`. -/
def isSpaceChar (c : Char) : Bool :=
  c == ' ' || c == '\t' || c == '\n' || c == '\r'

/-- Model of Go `strings.TrimSpace` (restricted to ASCII whitespace,
which is all the tab-separated az output in this program produces). -/
def trimSpace (s : String) : String :=
  String.mk (((s.data.dropWhile isSpaceChar).reverse.dropWhile isSpaceChar).reverse)

/-- The persisted configuration record, from the `Config` struct of the
config package. The current command files refer to the identity field as
`IdentityName`; the spec (§3) identifies `identityName` a.k.a.
`workloadIdentity`, and the struct in the sources declares
`WorkloadIdentity`, so a single field `workloadIdentity` models both. -/
structure Config where
  subscriptionID : String
  tenantID : String
  resourceGroup : String
  clusterName : String
  location : String
  workloadIdentity : String
  workspaceLocation : String
deriving DecidableEq, Repr

/-- The zero value of the `Config` struct: every field the empty string. -/
def emptyConfig : Config :=
  { subscriptionID := "", tenantID := "", resourceGroup := "", clusterName := ""
    location := "", workloadIdentity := "", workspaceLocation := "" }

/-- Local filesystem state relevant to the configuration store.
`dirExists` says whether the per-user config directory exists,
`mkdirOk` whether `os.MkdirAll` would succeed in creating it when it is
absent (`mkdirErr` is the error text it reports otherwise), and `file`
holds the parsed JSON object of `config.json` when that file exists.
Files written by `SaveConfig` are always well-formed JSON objects of
string fields, which is what the association list represents. -/
structure FS where
  dirExists : Bool
  mkdirOk : Bool
  mkdirErr : String
  file : Option (List (String × String))
deriving DecidableEq, Repr

/-- Model of `json.MarshalIndent` on the `Config` struct: a JSON object
with the seven tagged fields, in declaration order. -/
def marshalConfig (c : Config) : List (String × String) :=
  [("subscriptionId", c.subscriptionID), ("tenantId", c.tenantID),
   ("resourceGroup", c.resourceGroup), ("clusterName", c.clusterName),
   ("location", c.location), ("workloadIdentity", c.workloadIdentity),
   ("workspaceLocation", c.workspaceLocation)]

/-- Field lookup in a parsed JSON object; an absent key decodes to the
string zero value, as `json.Unmarshal` leaves missing fields zeroed. -/
def jsonLookup (key : String) : List (String × String) → String
  | [] => ""
  | (k, v) :: t => if k == key then v else jsonLookup key t

/-- Model of `json.Unmarshal` into the `Config` struct. -/
def unmarshalConfig (l : List (String × String)) : Config :=
  { subscriptionID := jsonLookup "subscriptionId" l
    tenantID := jsonLookup "tenantId" l
    resourceGroup := jsonLookup "resourceGroup" l
    clusterName := jsonLookup "clusterName" l
    location := jsonLookup "location" l
    workloadIdentity := jsonLookup "workloadIdentity" l
    workspaceLocation := jsonLookup "workspaceLocation" l }

/-- Model of `GetConfigDir`: `os.MkdirAll` succeeds when the directory
already exists or can be created (creating it as a side effect), and
otherwise the function fails with the wrapped mkdir error. -/
def GetConfigDir (fs : FS) : Except String FS :=
  if fs.dirExists || fs.mkdirOk then
    Except.ok { fs with dirExists := true }
  else
    Except.error ("failed to create config directory: " ++ fs.mkdirErr)

/-- Model of `LoadConfig`: ensure the config directory exists (failing if
it cannot be created), treat an absent `config.json` as the empty default
record, and otherwise decode the stored JSON object. -/
def LoadConfig (fs : FS) : Except String Config × FS :=
  match GetConfigDir fs with
  | Except.error e => (Except.error e, fs)
  | Except.ok fs1 =>
    match fs1.file with
    | none => (Except.ok emptyConfig, fs1)
    | some data => (Except.ok (unmarshalConfig data), fs1)

/-- Model of `SaveConfig`: ensure the config directory exists, then write
the marshalled record to `config.json`. -/
def SaveConfig (c : Config) (fs : FS) : Except String Unit × FS :=
  match GetConfigDir fs with
  | Except.error e => (Except.error e, fs)
  | Except.ok fs1 => (Except.ok (), { fs1 with file := some (marshalConfig c) })

theorem unmarshal_marshal (c : Config) : unmarshalConfig (marshalConfig c) = c := by
  cases c
  simp [unmarshalConfig, marshalConfig, jsonLookup]

theorem loadConfig_dirExists {fs : FS} {c : Config} {fs1 : FS}
    (h : LoadConfig fs = (Except.ok c, fs1)) : fs1.dirExists = true := by
  unfold LoadConfig GetConfigDir at h
  by_cases hd : (fs.dirExists || fs.mkdirOk) = true
  · cases hf : fs.file <;> simp [hd, hf] at h <;> simp [← h.2]
  · simp [hd] at h

theorem loadConfig_idem {fs : FS} {c : Config} {fs1 : FS}
    (h : LoadConfig fs = (Except.ok c, fs1)) :
    LoadConfig fs1 = (Except.ok c, fs1) := by
  have hd := loadConfig_dirExists h
  unfold LoadConfig GetConfigDir at h ⊢
  by_cases hcase : (fs.dirExists || fs.mkdirOk) = true
  · cases hf : fs.file <;> simp [hcase, hf] at h
    · simp [hd, ← h.2, ← h.1, hf]
    · simp [hd, ← h.2, ← h.1, hf]
  · simp [hcase] at h

/-- C3: saving any configuration record and loading it back returns an
equal record, for every prior filesystem state in which the store is
writable (the config directory exists or can be created). -/
theorem saveConfig_loadConfig_roundtrip (c : Config) (fs : FS)
    (h : fs.dirExists = true ∨ fs.mkdirOk = true) :
    (LoadConfig (SaveConfig c fs).2).1 = Except.ok c := by
  have hd : (fs.dirExists || fs.mkdirOk) = true := by
    rcases h with h | h <;> simp [h]
  unfold SaveConfig LoadConfig GetConfigDir
  simp [hd, unmarshal_marshal]

theorem saveConfig_loadConfig_roundtrip_witness :
    (LoadConfig (SaveConfig
      { subscriptionID := "s", tenantID := "t", resourceGroup := "rg"
        clusterName := "c", location := "l", workloadIdentity := "w"
        workspaceLocation := "x" }
      { dirExists := false, mkdirOk := true, mkdirErr := "", file := none }).2).1
      = Except.ok
      { subscriptionID := "s", tenantID := "t", resourceGroup := "rg"
        clusterName := "c", location := "l", workloadIdentity := "w"
        workspaceLocation := "x" } :=
  saveConfig_loadConfig_roundtrip _ _ (Or.inr rfl)

/-- C9: loading the configuration is not filesystem-effect-free. First,
whenever `os.MkdirAll` can succeed, every `LoadConfig` call leaves the
per-user config directory existing on disk (creating it when absent),
even though loading is conceptually read-only. Second, when the
directory is absent and cannot be created, `LoadConfig` fails with the
directory-creation error, and this outcome is independent of the
contents of the configuration file, which is never read in that case. -/
theorem loadConfig_filesystem_effects :
    (∀ fs : FS, fs.mkdirOk = true →
      (LoadConfig fs).2.dirExists = true ∧
      ∃ c, (LoadConfig fs).1 = Except.ok c) ∧
    (∀ fs : FS, fs.dirExists = false → fs.mkdirOk = false →
      (LoadConfig fs).1 =
        Except.error ("failed to create config directory: " ++ fs.mkdirErr) ∧
      ∀ f, (LoadConfig { fs with file := f }).1 = (LoadConfig fs).1) := by
  constructor
  · intro fs hmk
    unfold LoadConfig GetConfigDir
    simp [hmk]
    cases hf : fs.file <;> simp [hf]
  · intro fs hd hmk
    unfold LoadConfig GetConfigDir
    simp [hd, hmk]

theorem loadConfig_filesystem_effects_witness :
    ((LoadConfig { dirExists := false, mkdirOk := true, mkdirErr := "", file := none }).2.dirExists = true ∧
      ∃ c, (LoadConfig { dirExists := false, mkdirOk := true, mkdirErr := "", file := none }).1 = Except.ok c) ∧
    ((LoadConfig { dirExists := false, mkdirOk := false, mkdirErr := "denied", file := none }).1 =
        Except.error ("failed to create config directory: " ++ "denied") ∧
      ∀ f, (LoadConfig { dirExists := false, mkdirOk := false, mkdirErr := "denied", file := f }).1 =
        (LoadConfig { dirExists := false, mkdirOk := false, mkdirErr := "denied", file := none }).1) :=
  ⟨loadConfig_filesystem_effects.1 _ rfl,
   loadConfig_filesystem_effects.2 _ rfl rfl⟩

/-- Model of the `config reset` command handler: without `-y` it prompts
and proceeds only on a `y`/`Y` response (otherwise the reset is
cancelled and the store untouched), then overwrites the store with the
zero-valued record via `SaveConfig`. -/
def newConfigResetCommand (yes : Bool) (response : String) (fs : FS) :
    Except String Unit × FS :=
  if !yes && response != "y" && response != "Y" then
    (Except.ok (), fs)
  else
    match SaveConfig emptyConfig fs with
    | (Except.error e, fs1) => (Except.error ("failed to reset config: " ++ e), fs1)
    | (Except.ok _, fs1) => (Except.ok (), fs1)

/-- C8: for every prior state of the configuration store in which the
store is writable, a confirmed `config reset` succeeds and leaves the
persisted configuration equal to the all-empty record: the file holds
exactly the marshalled empty record, and loading it back yields the
record with every field the empty string. -/
theorem configReset_all_empty (yes : Bool) (response : String) (fs : FS)
    (hconfirm : yes = true ∨ response = "y" ∨ response = "Y")
    (hw : fs.dirExists = true ∨ fs.mkdirOk = true) :
    (newConfigResetCommand yes response fs).1 = Except.ok () ∧
    (newConfigResetCommand yes response fs).2.file = some (marshalConfig emptyConfig) ∧
    (LoadConfig (newConfigResetCommand yes response fs).2).1 = Except.ok emptyConfig := by
  have hd : (fs.dirExists || fs.mkdirOk) = true := by
    rcases hw with h | h <;> simp [h]
  have hbranch : (!yes && response != "y" && response != "Y") = false := by
    rcases hconfirm with h | h | h <;> simp [h]
  unfold newConfigResetCommand SaveConfig LoadConfig GetConfigDir
  simp [hbranch, hd, unmarshal_marshal]

theorem configReset_all_empty_witness :
    (newConfigResetCommand true ""
      { dirExists := true, mkdirOk := false, mkdirErr := ""
        file := some (marshalConfig { emptyConfig with clusterName := "old", subscriptionID := "s" }) }).1
      = Except.ok () ∧
    (newConfigResetCommand true ""
      { dirExists := true, mkdirOk := false, mkdirErr := ""
        file := some (marshalConfig { emptyConfig with clusterName := "old", subscriptionID := "s" }) }).2.file
      = some (marshalConfig emptyConfig) ∧
    (LoadConfig (newConfigResetCommand true ""
      { dirExists := true, mkdirOk := false, mkdirErr := ""
        file := some (marshalConfig { emptyConfig with clusterName := "old", subscriptionID := "s" }) }).2).1
      = Except.ok emptyConfig :=
  configReset_all_empty true "" _ (Or.inl rfl) (Or.inl rfl)

/-- The argv of `az aks create` built by `Service.CreateCluster`,
including the caller-supplied pass-through arguments appended last. -/
def createClusterArgs (subscriptionID resourceGroup clusterName location : String)
    (nodeCount : Int) (nodeVMSize : String) (additionalArgs : List String) : Cmd :=
  ["az", "aks", "create",
   "--resource-group", resourceGroup,
   "--name", clusterName,
   "--location", location,
   "--enable-oidc-issuer",
   "--enable-workload-identity",
   "--generate-ssh-keys",
   "--node-count", toString nodeCount,
   "--node-vm-size", nodeVMSize,
   "--dns-name-prefix", clusterName ++ "-wid",
   "--subscription", subscriptionID] ++ additionalArgs

/-- Model of `Service.CreateCluster`: invoke `az aks create`; on failure
return the wrapped error with the combined output appended and leave the
store untouched; on success load the store, set its cluster name and
resource group, and save it. Returns the result, the final filesystem
state, and the trace of external commands issued. -/
def CreateCluster (env : Env) (subscriptionID resourceGroup clusterName location : String)
    (nodeCount : Int) (nodeVMSize : String) (additionalArgs : List String) (fs : FS) :
    Except String Unit × FS × List Cmd :=
  let c := createClusterArgs subscriptionID resourceGroup clusterName location
    nodeCount nodeVMSize additionalArgs
  let r := env c
  match r.errText with
  | some e =>
    (Except.error ("failed to create AKS cluster: " ++ e ++ "\nOutput: " ++ r.output), fs, [c])
  | none =>
    match LoadConfig fs with
    | (Except.error e, fs1) => (Except.error ("failed to load config: " ++ e), fs1, [c])
    | (Except.ok cfg, fs1) =>
      match SaveConfig { cfg with clusterName := clusterName, resourceGroup := resourceGroup } fs1 with
      | (Except.error e, fs2) => (Except.error ("failed to save config: " ++ e), fs2, [c])
      | (Except.ok _, fs2) => (Except.ok (), fs2, [c])

/-- C2: with a writable configuration store, the persisted cluster name
and resource group are updated exactly when the external `az aks create`
command succeeds. On success the operation returns ok and the reloaded
store shows the new cluster name and resource group; on any failure the
operation returns the step error with the captured combined output
appended and the store is left byte-for-byte unchanged. -/
theorem createCluster_config_updated_iff_success (env : Env)
    (subscriptionID resourceGroup clusterName location : String)
    (nodeCount : Int) (nodeVMSize : String) (additionalArgs : List String) (fs : FS)
    (hw : fs.dirExists = true ∨ fs.mkdirOk = true) :
    (∀ e, (env (createClusterArgs subscriptionID resourceGroup clusterName location
        nodeCount nodeVMSize additionalArgs)).errText = some e →
      CreateCluster env subscriptionID resourceGroup clusterName location
          nodeCount nodeVMSize additionalArgs fs =
        (Except.error ("failed to create AKS cluster: " ++ e ++ "\nOutput: " ++
          (env (createClusterArgs subscriptionID resourceGroup clusterName location
            nodeCount nodeVMSize additionalArgs)).output), fs,
         [createClusterArgs subscriptionID resourceGroup clusterName location
            nodeCount nodeVMSize additionalArgs])) ∧
    ((env (createClusterArgs subscriptionID resourceGroup clusterName location
        nodeCount nodeVMSize additionalArgs)).errText = none →
      (CreateCluster env subscriptionID resourceGroup clusterName location
          nodeCount nodeVMSize additionalArgs fs).1 = Except.ok () ∧
      ∃ cfg1, (LoadConfig (CreateCluster env subscriptionID resourceGroup clusterName location
          nodeCount nodeVMSize additionalArgs fs).2.1).1 = Except.ok cfg1 ∧
        cfg1.clusterName = clusterName ∧ cfg1.resourceGroup = resourceGroup) := by
  have hd : (fs.dirExists || fs.mkdirOk) = true := by
    rcases hw with h | h <;> simp [h]
  constructor
  · intro e he
    unfold CreateCluster
    simp [he]
  · intro hok
    cases hf : fs.file <;>
      simp [CreateCluster, LoadConfig, SaveConfig, GetConfigDir, hok, hf, hw,
        unmarshal_marshal]

theorem createCluster_config_updated_iff_success_witness :
    ((CreateCluster (fun _ => { errText := none, output := "" })
        "sub" "demo-rg" "demo" "eastus" 1 "Standard_DS2_v2" []
        { dirExists := true, mkdirOk := false, mkdirErr := "", file := none }).1
      = Except.ok () ∧
     ∃ cfg1, (LoadConfig (CreateCluster (fun _ => { errText := none, output := "" })
        "sub" "demo-rg" "demo" "eastus" 1 "Standard_DS2_v2" []
        { dirExists := true, mkdirOk := false, mkdirErr := "", file := none }).2.1).1
        = Except.ok cfg1 ∧
       cfg1.clusterName = "demo" ∧ cfg1.resourceGroup = "demo-rg") ∧
    (CreateCluster (fun _ => { errText := some "exit status 1", output := "boom" })
        "sub" "demo-rg" "demo" "eastus" 1 "Standard_DS2_v2" []
        { dirExists := true, mkdirOk := false, mkdirErr := "", file := none })
      = (Except.error ("failed to create AKS cluster: " ++ "exit status 1" ++ "\nOutput: " ++ "boom"),
         { dirExists := true, mkdirOk := false, mkdirErr := "", file := none },
         [createClusterArgs "sub" "demo-rg" "demo" "eastus" 1 "Standard_DS2_v2" []]) :=
  ⟨(createCluster_config_updated_iff_success
      (fun _ => { errText := none, output := "" })
      "sub" "demo-rg" "demo" "eastus" 1 "Standard_DS2_v2" [] _ (Or.inl rfl)).2 rfl,
   (createCluster_config_updated_iff_success
      (fun _ => { errText := some "exit status 1", output := "boom" })
      "sub" "demo-rg" "demo" "eastus" 1 "Standard_DS2_v2" [] _ (Or.inl rfl)).1
      "exit status 1" rfl⟩

/-- One step of a straight-line external pipeline: the command to run
and the Go error string built from the wrapped error text and the
captured combined output when that command fails. -/
structure Step where
  cmd : Cmd
  mkErr : String → String → String

/-- Run a straight-line pipeline: each step's command is issued in
order, and the first failing step aborts the rest with that step's
error; the trace records exactly the commands issued. -/
def runSteps (env : Env) : List Step → Except String Unit × List Cmd
  | [] => (Except.ok (), [])
  | s :: rest =>
    let r := env s.cmd
    match r.errText with
    | some e => (Except.error (s.mkErr e r.output), [s.cmd])
    | none =>
      let tail := runSteps env rest
      (tail.1, s.cmd :: tail.2)

/-- Index and error message of the first step of a pipeline whose
command fails under the oracle, if any. -/
def firstFail (env : Env) : List Step → Option (Nat × String)
  | [] => none
  | s :: rest =>
    let r := env s.cmd
    match r.errText with
    | some e => some (0, s.mkErr e r.output)
    | none => (firstFail env rest).map (fun p => (p.1 + 1, p.2))

theorem runSteps_firstFail (env : Env) (steps : List Step) :
    (firstFail env steps = none →
      runSteps env steps = (Except.ok (), steps.map Step.cmd)) ∧
    (∀ k msg, firstFail env steps = some (k, msg) →
      runSteps env steps = (Except.error msg, (steps.map Step.cmd).take (k + 1))) := by
  induction steps with
  | nil => simp [firstFail, runSteps]
  | cons s rest ih =>
    constructor
    · intro hnone
      unfold firstFail at hnone
      cases hr : (env s.cmd).errText with
      | some e => simp [hr] at hnone
      | none =>
        simp [hr, Option.map_eq_none'] at hnone
        simp [runSteps, hr, ih.1 hnone]
    · intro k msg hsome
      unfold firstFail at hsome
      cases hr : (env s.cmd).errText with
      | some e =>
        simp [hr] at hsome
        simp [runSteps, hr, hsome.1, ← hsome.2]
      | none =>
        simp only [hr, Option.map_eq_some'] at hsome
        obtain ⟨⟨k0, m0⟩, hff, hkm⟩ := hsome
        have hk : k0 + 1 = k := congrArg Prod.fst hkm
        have hm : m0 = msg := congrArg Prod.snd hkm
        subst hm
        simp [runSteps, hr, ih.2 k0 m0 hff, ← hk, List.take_succ_cons]

/-- The thirteen external commands of `Service.DeploySpinOperator`, in
source order, paired with the error strings its thirteen failure
branches produce. -/
def spinOperatorSteps (subscriptionID : String) (cfg : Config) : List Step :=
  [⟨["az", "aks", "get-credentials",
     "--name", cfg.clusterName,
     "--resource-group", cfg.resourceGroup,
     "--subscription", subscriptionID,
     "--overwrite-existing"],
    fun e o => "failed to get Kubernetes credentials: " ++ e ++ "\nOutput: " ++ o⟩,
   ⟨["kubectl", "apply", "-f",
     "https://github.com/spinkube/spin-operator/releases/download/v0.4.0/spin-operator.crds.yaml"],
    fun e o => "failed to install Spin Operator CRDs: " ++ e ++ "\nOutput: " ++ o⟩,
   ⟨["kubectl", "apply", "-f",
     "https://github.com/spinkube/spin-operator/releases/download/v0.4.0/spin-operator.runtime-class.yaml"],
    fun e o => "failed to install Spin Operator Runtime Class: " ++ e ++ "\nOutput: " ++ o⟩,
   ⟨["kubectl", "apply", "-f",
     "https://github.com/cert-manager/cert-manager/releases/download/v1.14.3/cert-manager.crds.yaml"],
    fun e o => "failed to install cert-manager CRDs: " ++ e ++ "\nOutput: " ++ o⟩,
   ⟨["helm", "repo", "add", "jetstack", "https://charts.jetstack.io"],
    fun e o => "failed to add Jetstack Helm repository: " ++ e ++ "\nOutput: " ++ o⟩,
   ⟨["helm", "repo", "update"],
    fun e o => "failed to update Helm repositories: " ++ e ++ "\nOutput: " ++ o⟩,
   ⟨["helm", "install", "cert-manager", "jetstack/cert-manager",
     "--namespace", "cert-manager", "--create-namespace", "--version", "v1.14.3"],
    fun e o => "failed to install cert-manager: " ++ e ++ "\nOutput: " ++ o⟩,
   ⟨["helm", "repo", "add", "kwasm", "http://kwasm.sh/kwasm-operator/"],
    fun e o => "failed to add KWasm Helm repository: " ++ e ++ "\nOutput: " ++ o⟩,
   ⟨["helm", "install", "kwasm-operator", "kwasm/kwasm-operator",
     "--namespace", "kwasm", "--create-namespace",
     "--set", "kwasmOperator.installerImage=ghcr.io/spinkube/containerd-shim-spin/node-installer:v0.18.0"],
    fun e o => "failed to install KWasm operator: " ++ e ++ "\nOutput: " ++ o⟩,
   ⟨["kubectl", "annotate", "node", "--all", "kwasm.sh/kwasm-node=true"],
    fun e o => "failed to annotate nodes for KWasm: " ++ e ++ "\nOutput: " ++ o⟩,
   ⟨["sleep", "30"],
    fun e _ => "failed while waiting for KWasm initialization: " ++ e⟩,
   ⟨["helm", "install", "spin-operator",
     "--namespace", "spin-operator", "--create-namespace",
     "--version", "0.4.0", "--wait",
     "oci://ghcr.io/spinkube/charts/spin-operator"],
    fun e o => "failed to install Spin Operator: " ++ e ++ "\nOutput: " ++ o⟩,
   ⟨["kubectl", "apply", "-f",
     "https://github.com/spinkube/spin-operator/releases/download/v0.4.0/spin-operator.shim-executor.yaml"],
    fun e o => "failed to apply shim executor configuration: " ++ e ++ "\nOutput: " ++ o⟩]

/-- Model of `Service.DeploySpinOperator`: load the store, require a
selected cluster, run the thirteen external commands in order aborting
at the first failure, and on full success re-save the loaded record. -/
def DeploySpinOperator (env : Env) (subscriptionID : String) (fs : FS) :
    Except String Unit × FS × List Cmd :=
  match LoadConfig fs with
  | (Except.error e, fs1) => (Except.error ("failed to load config: " ++ e), fs1, [])
  | (Except.ok cfg, fs1) =>
    if cfg.clusterName = "" ∨ cfg.resourceGroup = "" then
      (Except.error "no cluster is currently selected, use 'spin azure cluster use' first", fs1, [])
    else
      let run := runSteps env (spinOperatorSteps subscriptionID cfg)
      match run.1 with
      | Except.error e => (Except.error e, fs1, run.2)
      | Except.ok _ =>
        match SaveConfig cfg fs1 with
        | (Except.error e, fs2) => (Except.error ("failed to save config: " ++ e), fs2, run.2)
        | (Except.ok _, fs2) => (Except.ok (), fs2, run.2)

/-- C1: with a cluster selected, `DeploySpinOperator` issues the fixed
thirteen-command sequence in source order. When every command succeeds
the trace is exactly that sequence and the operation returns ok; when
some command fails, the first failing step aborts the pipeline: the
result is that step's error, the trace is exactly the sequence prefix
ending at the failing step (no later step is invoked), and the
filesystem state is the one produced by the initial load (no earlier
step is undone and nothing further is written). -/
theorem deploySpinOperator_fixed_sequence (env : Env) (subscriptionID : String)
    (fs fs1 : FS) (cfg : Config)
    (hload : LoadConfig fs = (Except.ok cfg, fs1))
    (hc : cfg.clusterName ≠ "") (hr : cfg.resourceGroup ≠ "") :
    (firstFail env (spinOperatorSteps subscriptionID cfg) = none →
      (DeploySpinOperator env subscriptionID fs).1 = Except.ok () ∧
      (DeploySpinOperator env subscriptionID fs).2.2 =
        (spinOperatorSteps subscriptionID cfg).map Step.cmd) ∧
    (∀ k msg, firstFail env (spinOperatorSteps subscriptionID cfg) = some (k, msg) →
      DeploySpinOperator env subscriptionID fs =
        (Except.error msg, fs1,
         ((spinOperatorSteps subscriptionID cfg).map Step.cmd).take (k + 1))) := by
  have hd1 : fs1.dirExists = true := loadConfig_dirExists hload
  constructor
  · intro hnone
    have hrun := (runSteps_firstFail env (spinOperatorSteps subscriptionID cfg)).1 hnone
    unfold DeploySpinOperator
    simp [hload, hc, hr, hrun, SaveConfig, GetConfigDir, hd1]
  · intro k msg hsome
    have hrun := (runSteps_firstFail env (spinOperatorSteps subscriptionID cfg)).2 k msg hsome
    unfold DeploySpinOperator
    simp [hload, hc, hr, hrun]

theorem deploySpinOperator_fixed_sequence_witness :
    (DeploySpinOperator (fun _ => { errText := none, output := "" }) "sub"
        { dirExists := true, mkdirOk := false, mkdirErr := ""
          file := some (marshalConfig
            { emptyConfig with clusterName := "demo", resourceGroup := "demo-rg" }) }).1
      = Except.ok () ∧
    (DeploySpinOperator (fun _ => { errText := none, output := "" }) "sub"
        { dirExists := true, mkdirOk := false, mkdirErr := ""
          file := some (marshalConfig
            { emptyConfig with clusterName := "demo", resourceGroup := "demo-rg" }) }).2.2
      = (spinOperatorSteps "sub"
          { emptyConfig with clusterName := "demo", resourceGroup := "demo-rg" }).map Step.cmd :=
  (deploySpinOperator_fixed_sequence (fun _ => { errText := none, output := "" }) "sub"
    { dirExists := true, mkdirOk := false, mkdirErr := ""
      file := some (marshalConfig
        { emptyConfig with clusterName := "demo", resourceGroup := "demo-rg" }) }
    { dirExists := true, mkdirOk := false, mkdirErr := ""
      file := some (marshalConfig
        { emptyConfig with clusterName := "demo", resourceGroup := "demo-rg" }) }
    { emptyConfig with clusterName := "demo", resourceGroup := "demo-rg" }
    (by simp [LoadConfig, GetConfigDir, unmarshal_marshal])
    (by simp [emptyConfig]) (by simp [emptyConfig])).1 rfl

/-- The argv of `az cosmosdb check-name-exists` issued by
`validateCosmosDBAccount`. -/
def cosmosCheckNameCmd (subscriptionID name : String) : Cmd :=
  ["az", "cosmosdb", "check-name-exists", "--name", name, "--subscription", subscriptionID]

/-- The argv of the plain `az cosmosdb show` issued by
`validateCosmosDBAccount`. -/
def cosmosShowCmd (subscriptionID name resourceGroup : String) : Cmd :=
  ["az", "cosmosdb", "show", "--name", name, "--resource-group", resourceGroup,
   "--subscription", subscriptionID]

/-- The argv of the `az identity show` principal-ID query issued by
`getIdentityPrincipalID`. -/
def identityPrincipalCmd (subscriptionID name resourceGroup : String) : Cmd :=
  ["az", "identity", "show", "--name", name, "--resource-group", resourceGroup,
   "--subscription", subscriptionID, "--query", "principalId", "--output", "tsv"]

/-- The argv of the `az cosmosdb show` resource-ID query issued by
`getCosmosDBResourceID`. -/
def cosmosResourceIDCmd (subscriptionID name resourceGroup : String) : Cmd :=
  ["az", "cosmosdb", "show", "--name", name, "--resource-group", resourceGroup,
   "--subscription", subscriptionID, "--query", "id", "--output", "tsv"]

/-- The hardcoded role-definition identifier built by
`assignRoleToCosmosDB`, ending in the fixed data-plane contributor
GUID. -/
def cosmosRoleDefinitionID (subscriptionID resourceGroup cosmosDBName : String) : String :=
  "/subscriptions/" ++ subscriptionID ++ "/resourceGroups/" ++ resourceGroup ++
    "/providers/Microsoft.DocumentDB/databaseAccounts/" ++ cosmosDBName ++
    "/sqlRoleDefinitions/00000000-0000-0000-0000-000000000002"

/-- The argv of `az cosmosdb sql role assignment create` issued by
`assignRoleToCosmosDB`. -/
def cosmosRoleAssignCmd (subscriptionID cosmosDBName resourceGroup principalID scope : String) : Cmd :=
  ["az", "cosmosdb", "sql", "role", "assignment", "create",
   "--account-name", cosmosDBName,
   "--resource-group", resourceGroup,
   "--role-definition-id", cosmosRoleDefinitionID subscriptionID resourceGroup cosmosDBName,
   "--principal-id", principalID,
   "--scope", scope,
   "--subscription", subscriptionID]

/-- Model of `CosmosDBService.getCosmosDBResourceID`: query the
account's ARM resource ID and trim the tab-separated output. -/
def getCosmosDBResourceID (env : Env) (subscriptionID name resourceGroup : String) :
    Except String String × List Cmd :=
  let c := cosmosResourceIDCmd subscriptionID name resourceGroup
  let r := env c
  match r.errText with
  | some e =>
    (Except.error ("failed to get CosmosDB resource ID: " ++ e ++ "\nOutput: " ++ r.output), [c])
  | none => (Except.ok (trimSpace r.output), [c])

/-- Model of `CosmosDBService.assignRoleToCosmosDB`: resolve the
account's resource ID, build the fixed role-definition identifier, and
create the role assignment scoped to that resource ID. -/
def assignRoleToCosmosDB (env : Env)
    (subscriptionID identityPrincipalID cosmosDBName resourceGroup : String) :
    Except String Unit × List Cmd :=
  match getCosmosDBResourceID env subscriptionID cosmosDBName resourceGroup with
  | (Except.error e, tr) => (Except.error e, tr)
  | (Except.ok cosmosDBResourceID, tr) =>
    let c := cosmosRoleAssignCmd subscriptionID cosmosDBName resourceGroup
      identityPrincipalID cosmosDBResourceID
    let r := env c
    match r.errText with
    | some e =>
      (Except.error ("failed to assign role to CosmosDB: " ++ e ++ "\nOutput: " ++ r.output), tr ++ [c])
    | none => (Except.ok (), tr ++ [c])

/-- Model of `CosmosDBService.validateCosmosDBAccount`: the two-step
check-then-show existence validation. -/
def validateCosmosDBAccount (env : Env) (subscriptionID name resourceGroup : String) :
    Except String Unit × List Cmd :=
  let c1 := cosmosCheckNameCmd subscriptionID name
  let r1 := env c1
  match r1.errText with
  | some e =>
    (Except.error ("failed to check if CosmosDB exists: " ++ e ++ "\nOutput: " ++ r1.output), [c1])
  | none =>
    let c2 := cosmosShowCmd subscriptionID name resourceGroup
    let r2 := env c2
    match r2.errText with
    | some e =>
      (Except.error ("CosmosDB '" ++ name ++ "' not found in resource group '" ++ resourceGroup ++
        "': " ++ e ++ "\nOutput: " ++ r2.output), [c1, c2])
    | none => (Except.ok (), [c1, c2])

/-- Model of `CosmosDBService.getIdentityPrincipalID`. -/
def getIdentityPrincipalID (env : Env) (subscriptionID name resourceGroup : String) :
    Except String String × List Cmd :=
  let c := identityPrincipalCmd subscriptionID name resourceGroup
  let r := env c
  match r.errText with
  | some e =>
    (Except.error ("failed to get identity principal ID: " ++ e ++ "\nOutput: " ++ r.output), [c])
  | none => (Except.ok (trimSpace r.output), [c])

/-- Model of `CosmosDBService.BindCosmosDB`: validate the account,
resolve the identity's principal ID, and assign the role. -/
def BindCosmosDB (env : Env)
    (subscriptionID name resourceGroup identityName identityResourceGroup : String) :
    Except String Unit × List Cmd :=
  match validateCosmosDBAccount env subscriptionID name resourceGroup with
  | (Except.error e, tr) => (Except.error e, tr)
  | (Except.ok _, tr1) =>
    match getIdentityPrincipalID env subscriptionID identityName identityResourceGroup with
    | (Except.error e, tr) => (Except.error e, tr1 ++ tr)
    | (Except.ok identityPrincipalID, tr2) =>
      match assignRoleToCosmosDB env subscriptionID identityPrincipalID name resourceGroup with
      | (res, tr3) => (res, tr1 ++ tr2 ++ tr3)

/-- Model of the `assign-role cosmosdb` command handler
(`newBindCosmosDBCommand`): obtain a credential, load the store, check
the subscription, resolve the CosmosDB resource group (flag, then
store), default the identity resource group, resolve the identity name
(flag, then store), and only then call `BindCosmosDB`. The current
sources read the store's identity via the field named `IdentityName`,
modelled by `workloadIdentity` (spec §3: identityName a.k.a.
workloadIdentity). -/
def newBindCosmosDBCommand (env : Env) (credOk : Bool) (credErr : String)
    (name resourceGroup identityName identityResourceGroup : String) (fs : FS) :
    Except String Unit × FS × List Cmd :=
  if credOk = false then
    (Except.error ("failed to get Azure credential: " ++ credErr), fs, [])
  else
    match LoadConfig fs with
    | (Except.error e, fs1) => (Except.error ("failed to load config: " ++ e), fs1, [])
    | (Except.ok cfg, fs1) =>
      if cfg.subscriptionID = "" then
        (Except.error "subscription ID not set, please set it using `spin azure login`", fs1, [])
      else
        let rg := if resourceGroup = "" then cfg.resourceGroup else resourceGroup
        if rg = "" then
          (Except.error "resource group for CosmosDB not set, please set it using --resource-group", fs1, [])
        else
          let idRG := if identityResourceGroup = "" then rg else identityResourceGroup
          let idName := if identityName = "" then cfg.workloadIdentity else identityName
          if idName = "" then
            (Except.error "identity name not set, please set it using --identity", fs1, [])
          else
            match BindCosmosDB env cfg.subscriptionID name rg idName idRG with
            | (Except.error e, tr) =>
              (Except.error ("failed to assign role to CosmosDB: " ++ e), fs1, tr)
            | (Except.ok _, tr) => (Except.ok (), fs1, tr)

/-- C6: when the `--identity` flag is absent and the configuration
store holds no identity name, the `assign-role cosmosdb` command
returns an error having issued zero external commands; moreover, when
the path actually reaches the identity check (credential obtained,
store loads, subscription and resource group set), the error is the
descriptive identity message. -/
theorem bindCosmosDBCommand_no_identity_fails (env : Env) (credOk : Bool) (credErr : String)
    (name resourceGroup identityResourceGroup : String) (fs : FS)
    (hstore : ∀ cfg fs1, LoadConfig fs = (Except.ok cfg, fs1) → cfg.workloadIdentity = "") :
    ((∃ e, (newBindCosmosDBCommand env credOk credErr
        name resourceGroup "" identityResourceGroup fs).1 = Except.error e) ∧
      (newBindCosmosDBCommand env credOk credErr
        name resourceGroup "" identityResourceGroup fs).2.2 = []) ∧
    (∀ cfg fs1, LoadConfig fs = (Except.ok cfg, fs1) → credOk = true →
      cfg.subscriptionID ≠ "" → (resourceGroup ≠ "" ∨ cfg.resourceGroup ≠ "") →
      (newBindCosmosDBCommand env credOk credErr
        name resourceGroup "" identityResourceGroup fs).1 =
        Except.error "identity name not set, please set it using --identity") := by
  constructor
  · by_cases hcred : credOk = false
    · simp [newBindCosmosDBCommand, hcred]
    · simp only [Bool.not_eq_false] at hcred
      cases hload : LoadConfig fs with
      | mk res fs1 =>
        cases res with
        | error e => simp [newBindCosmosDBCommand, hcred, hload]
        | ok cfg =>
          have hid := hstore cfg fs1 hload
          by_cases hsub : cfg.subscriptionID = ""
          · simp [newBindCosmosDBCommand, hcred, hload, hsub]
          · by_cases hrg : (if resourceGroup = "" then cfg.resourceGroup else resourceGroup) = ""
            · simp [newBindCosmosDBCommand, hcred, hload, hsub, hrg]
            · simp [newBindCosmosDBCommand, hcred, hload, hsub, hrg, hid]
  · intro cfg fs1 hload hcred hsub hrg
    have hid := hstore cfg fs1 hload
    have hcred' : ¬ credOk = false := by simp [hcred]
    have hrg' : ¬ (if resourceGroup = "" then cfg.resourceGroup else resourceGroup) = "" := by
      by_cases h0 : resourceGroup = ""
      · rcases hrg with h | h
        · exact absurd h0 h
        · simp [h0, h]
      · simp [h0]
    simp [newBindCosmosDBCommand, hcred', hload, hsub, hrg', hid]

theorem bindCosmosDBCommand_no_identity_fails_witness :
    ((∃ e, (newBindCosmosDBCommand (fun _ => { errText := none, output := "" }) true ""
        "my-cosmos" "my-rg" "" ""
        { dirExists := true, mkdirOk := false, mkdirErr := ""
          file := some (marshalConfig { emptyConfig with subscriptionID := "sub" }) }).1
      = Except.error e) ∧
      (newBindCosmosDBCommand (fun _ => { errText := none, output := "" }) true ""
        "my-cosmos" "my-rg" "" ""
        { dirExists := true, mkdirOk := false, mkdirErr := ""
          file := some (marshalConfig { emptyConfig with subscriptionID := "sub" }) }).2.2 = []) ∧
    (∀ cfg fs1, LoadConfig
        { dirExists := true, mkdirOk := false, mkdirErr := ""
          file := some (marshalConfig { emptyConfig with subscriptionID := "sub" }) }
        = (Except.ok cfg, fs1) → true = true →
      cfg.subscriptionID ≠ "" → ("my-rg" ≠ "" ∨ cfg.resourceGroup ≠ "") →
      (newBindCosmosDBCommand (fun _ => { errText := none, output := "" }) true ""
        "my-cosmos" "my-rg" "" ""
        { dirExists := true, mkdirOk := false, mkdirErr := ""
          file := some (marshalConfig { emptyConfig with subscriptionID := "sub" }) }).1 =
        Except.error "identity name not set, please set it using --identity") :=
  bindCosmosDBCommand_no_identity_fails (fun _ => { errText := none, output := "" }) true ""
    "my-cosmos" "my-rg" ""
    { dirExists := true, mkdirOk := false, mkdirErr := ""
      file := some (marshalConfig { emptyConfig with subscriptionID := "sub" }) }
    (by intro cfg fs1 h
        simp [LoadConfig, GetConfigDir, unmarshal_marshal] at h
        simp [← h.1, emptyConfig])

/-- C7: whenever `BindCosmosDB` succeeds, its external trace is exactly
the five-command sequence whose final role-assignment request carries
the role-definition identifier of exactly the hardcoded form
`/subscriptions/<sub>/resourceGroups/<rg>/providers/Microsoft.DocumentDB/databaseAccounts/<name>/sqlRoleDefinitions/00000000-0000-0000-0000-000000000002`
and whose scope is the trimmed ARM resource ID returned by the
account's `az cosmosdb show --query id` query. -/
theorem bindCosmosDB_role_definition_and_scope (env : Env)
    (subscriptionID name resourceGroup identityName identityResourceGroup : String)
    (hok : (BindCosmosDB env subscriptionID name resourceGroup
      identityName identityResourceGroup).1 = Except.ok ()) :
    (BindCosmosDB env subscriptionID name resourceGroup identityName identityResourceGroup).2 =
      [cosmosCheckNameCmd subscriptionID name,
       cosmosShowCmd subscriptionID name resourceGroup,
       identityPrincipalCmd subscriptionID identityName identityResourceGroup,
       cosmosResourceIDCmd subscriptionID name resourceGroup,
       ["az", "cosmosdb", "sql", "role", "assignment", "create",
        "--account-name", name,
        "--resource-group", resourceGroup,
        "--role-definition-id",
        "/subscriptions/" ++ subscriptionID ++ "/resourceGroups/" ++ resourceGroup ++
          "/providers/Microsoft.DocumentDB/databaseAccounts/" ++ name ++
          "/sqlRoleDefinitions/00000000-0000-0000-0000-000000000002",
        "--principal-id", trimSpace (env (identityPrincipalCmd subscriptionID identityName identityResourceGroup)).output,
        "--scope", trimSpace (env (cosmosResourceIDCmd subscriptionID name resourceGroup)).output,
        "--subscription", subscriptionID]] := by
  cases h1 : (env (cosmosCheckNameCmd subscriptionID name)).errText with
  | some e =>
    simp [BindCosmosDB, validateCosmosDBAccount, h1] at hok
  | none =>
    cases h2 : (env (cosmosShowCmd subscriptionID name resourceGroup)).errText with
    | some e =>
      simp [BindCosmosDB, validateCosmosDBAccount, h1, h2] at hok
    | none =>
      cases h3 : (env (identityPrincipalCmd subscriptionID identityName identityResourceGroup)).errText with
      | some e =>
        simp [BindCosmosDB, validateCosmosDBAccount, getIdentityPrincipalID, h1, h2, h3] at hok
      | none =>
        cases h4 : (env (cosmosResourceIDCmd subscriptionID name resourceGroup)).errText with
        | some e =>
          simp [BindCosmosDB, validateCosmosDBAccount, getIdentityPrincipalID,
            assignRoleToCosmosDB, getCosmosDBResourceID, h1, h2, h3, h4] at hok
        | none =>
          cases h5 : (env (cosmosRoleAssignCmd subscriptionID name resourceGroup
              (trimSpace (env (identityPrincipalCmd subscriptionID identityName identityResourceGroup)).output)
              (trimSpace (env (cosmosResourceIDCmd subscriptionID name resourceGroup)).output))).errText with
          | some e =>
            simp only [cosmosRoleAssignCmd, cosmosRoleDefinitionID] at h5
            simp [BindCosmosDB, validateCosmosDBAccount, getIdentityPrincipalID,
              assignRoleToCosmosDB, getCosmosDBResourceID, cosmosRoleAssignCmd,
              cosmosRoleDefinitionID, h1, h2, h3, h4, h5] at hok
          | none =>
            simp only [cosmosRoleAssignCmd, cosmosRoleDefinitionID] at h5
            simp [BindCosmosDB, validateCosmosDBAccount, getIdentityPrincipalID,
              assignRoleToCosmosDB, getCosmosDBResourceID, cosmosRoleAssignCmd,
              cosmosRoleDefinitionID, h1, h2, h3, h4, h5]

theorem bindCosmosDB_role_definition_and_scope_witness :
    (BindCosmosDB (fun _ => { errText := none, output := " rid \n" })
        "sub" "acct" "rg" "ident" "idrg").2 =
      [cosmosCheckNameCmd "sub" "acct",
       cosmosShowCmd "sub" "acct" "rg",
       identityPrincipalCmd "sub" "ident" "idrg",
       cosmosResourceIDCmd "sub" "acct" "rg",
       ["az", "cosmosdb", "sql", "role", "assignment", "create",
        "--account-name", "acct",
        "--resource-group", "rg",
        "--role-definition-id",
        "/subscriptions/" ++ "sub" ++ "/resourceGroups/" ++ "rg" ++
          "/providers/Microsoft.DocumentDB/databaseAccounts/" ++ "acct" ++
          "/sqlRoleDefinitions/00000000-0000-0000-0000-000000000002",
        "--principal-id", trimSpace ((fun (_ : Cmd) => ({ errText := none, output := " rid \n" } : ExecOutcome)) (identityPrincipalCmd "sub" "ident" "idrg")).output,
        "--scope", trimSpace ((fun (_ : Cmd) => ({ errText := none, output := " rid \n" } : ExecOutcome)) (cosmosResourceIDCmd "sub" "acct" "rg")).output,
        "--subscription", "sub"]] :=
  bindCosmosDB_role_definition_and_scope (fun _ => { errText := none, output := " rid \n" })
    "sub" "acct" "rg" "ident" "idrg" rfl

/-- A Kubernetes service account in the fixed "default" namespace, with
the value of its `azure.workload.identity/client-id` field from the
rendered manifest's metadata. -/
structure K8sSA where
  name : String
  clientID : String
deriving DecidableEq, Repr

/-- World state for cluster-side operations: the local config store
plus the service accounts present in the cluster's "default"
namespace. -/
structure World where
  fs : FS
  k8s : List K8sSA
deriving DecidableEq, Repr

/-- The client-id value of the named service account, when present. -/
def saLookup (k8s : List K8sSA) (n : String) : Option String :=
  match k8s with
  | [] => none
  | sa :: t => if sa.name = n then some sa.clientID else saLookup t n

/-- Collaborator model of `kubectl get serviceaccount <n> -n default
--ignore-not-found`: the tabular output names the service account
exactly when it exists, and is empty otherwise. -/
def kubectlGetSAOutput (k8s : List K8sSA) (n : String) : String :=
  match saLookup k8s n with
  | some _ => n
  | none => ""

/-- Collaborator model of `kubectl apply -f` on the rendered service
account manifest: create or replace the named account with the given
client-id value. -/
def applySA (k8s : List K8sSA) (n clientID : String) : List K8sSA :=
  match k8s with
  | [] => [{ name := n, clientID := clientID }]
  | sa :: t => if sa.name = n then { name := n, clientID := clientID } :: t
               else sa :: applySA t n clientID

/-- The argv of the `az aks get-credentials` call issued before any
kubectl operation. -/
def getCredsCmd (subscriptionID : String) (cfg : Config) : Cmd :=
  ["az", "aks", "get-credentials",
   "--name", cfg.clusterName,
   "--resource-group", cfg.resourceGroup,
   "--subscription", subscriptionID,
   "--overwrite-existing"]

/-- The argv of the `az identity show` client-ID query issued by
`getIdentityClientID`. -/
def identityClientIDCmd (subscriptionID name resourceGroup : String) : Cmd :=
  ["az", "identity", "show", "--name", name, "--resource-group", resourceGroup,
   "--subscription", subscriptionID, "--query", "clientId", "--output", "tsv"]

/-- The argv of the service-account existence query. -/
def checkSACmd (identityName : String) : Cmd :=
  ["kubectl", "get", "serviceaccount", identityName, "-n", "default", "--ignore-not-found"]

/-- The fixed name the model gives to the scoped temporary manifest
file produced by `os.CreateTemp` (removed on all exit paths). -/
def saTempFileName : String := "sa-temp.yaml"

/-- Model of `Service.getIdentityClientID` of the aks package,
including its reload of the store when the resource group argument is
empty. -/
def getIdentityClientID (env : Env) (subscriptionID name resourceGroup : String) (fs : FS) :
    Except String String × FS × List Cmd :=
  match (if resourceGroup = "" then
          match LoadConfig fs with
          | (Except.error e, fs1) => (Except.error ("failed to load config: " ++ e), fs1)
          | (Except.ok cfg, fs1) => (Except.ok cfg.resourceGroup, fs1)
        else (Except.ok resourceGroup, fs)) with
  | (Except.error e, fs1) => (Except.error e, fs1, [])
  | (Except.ok rg, fs1) =>
    let c := identityClientIDCmd subscriptionID name rg
    let r := env c
    match r.errText with
    | some e =>
      (Except.error ("failed to get identity client ID: " ++ e ++ "\nOutput: " ++ r.output), fs1, [c])
    | none => (Except.ok (trimSpace r.output), fs1, [c])

/-- Model of `Service.CreateServiceAccount`: load the store, require a
selected cluster, fetch cluster credentials, resolve the identity's
client ID, and then either short-circuit when the service-account list
query already names the account, or render the manifest to a temporary
file and apply it. -/
def CreateServiceAccount (env : Env) (subscriptionID identityName : String) (w : World) :
    Except String Unit × World × List Cmd :=
  match LoadConfig w.fs with
  | (Except.error e, fs1) =>
    (Except.error ("failed to load config: " ++ e), { w with fs := fs1 }, [])
  | (Except.ok cfg, fs1) =>
    if cfg.clusterName = "" ∨ cfg.resourceGroup = "" then
      (Except.error "no cluster is currently selected, use 'spin azure cluster use' first",
       { w with fs := fs1 }, [])
    else
      let c1 := getCredsCmd subscriptionID cfg
      let r1 := env c1
      match r1.errText with
      | some e =>
        (Except.error ("failed to get Kubernetes credentials: " ++ e ++ "\nOutput: " ++ r1.output),
         { w with fs := fs1 }, [c1])
      | none =>
        match getIdentityClientID env subscriptionID identityName cfg.resourceGroup fs1 with
        | (Except.error e, fs2, tr) =>
          (Except.error ("failed to get identity client ID: " ++ e), { w with fs := fs2 }, c1 :: tr)
        | (Except.ok identityClientID, fs2, tr) =>
          let c2 := checkSACmd identityName
          let checkOut := kubectlGetSAOutput w.k8s identityName
          if strContains checkOut identityName then
            (Except.ok (), { fs := fs2, k8s := w.k8s }, c1 :: tr ++ [c2])
          else
            let c3 : Cmd := ["kubectl", "apply", "-f", saTempFileName]
            (Except.ok (), { fs := fs2, k8s := applySA w.k8s identityName identityClientID },
             c1 :: tr ++ [c2, c3])

theorem listPrefixOf_refl (l : List Char) : listPrefixOf l l = true := by
  induction l with
  | nil => rfl
  | cons a t ih => simp [listPrefixOf, ih]

theorem strContains_refl (s : String) : strContains s s = true := by
  unfold strContains
  cases h : s.data with
  | nil => simp [listContainsSub]
  | cons a t => simp [listContainsSub, listPrefixOf_refl, h]

theorem saLookup_applySA (k8s : List K8sSA) (n cid : String) :
    saLookup (applySA k8s n cid) n = some cid := by
  induction k8s with
  | nil => simp [applySA, saLookup]
  | cons sa t ih =>
    by_cases h : sa.name = n
    · simp [applySA, saLookup, h]
    · simp [applySA, saLookup, h, ih]

theorem createServiceAccount_run (env : Env) (subscriptionID n : String)
    (w : World) (cfg : Config) (fs1 : FS)
    (hload : LoadConfig w.fs = (Except.ok cfg, fs1))
    (hc : cfg.clusterName ≠ "") (hr : cfg.resourceGroup ≠ "")
    (hcreds : (env (getCredsCmd subscriptionID cfg)).errText = none)
    (hshow : (env (identityClientIDCmd subscriptionID n cfg.resourceGroup)).errText = none) :
    CreateServiceAccount env subscriptionID n w =
      (if strContains (kubectlGetSAOutput w.k8s n) n then
        (Except.ok (), { fs := fs1, k8s := w.k8s },
         [getCredsCmd subscriptionID cfg,
          identityClientIDCmd subscriptionID n cfg.resourceGroup,
          checkSACmd n])
      else
        (Except.ok (),
         { fs := fs1, k8s := applySA w.k8s n
             (trimSpace (env (identityClientIDCmd subscriptionID n cfg.resourceGroup)).output) },
         [getCredsCmd subscriptionID cfg,
          identityClientIDCmd subscriptionID n cfg.resourceGroup,
          checkSACmd n,
          ["kubectl", "apply", "-f", saTempFileName]])) := by
  unfold CreateServiceAccount getIdentityClientID
  by_cases hcontains : strContains (kubectlGetSAOutput w.k8s n) n = true <;>
    simp [hload, hc, hr, hcreds, hshow, hcontains]

theorem strContains_empty_needle (s : String) : strContains s "" = true := by
  unfold strContains
  cases h : s.data with
  | nil => simp [listContainsSub]
  | cons a t => simp [listContainsSub, listPrefixOf]

/-- C4: `createServiceAccount` is idempotent. With a cluster selected
and the az credential and client-ID queries succeeding, a first
invocation succeeds, and a second invocation with the same identity
name succeeds, leaves the whole world state (including the service
account's client-ID value) exactly as the first invocation left it, and
short-circuits at the existence query: its trace ends at the
service-account list query, with no `kubectl apply` issued. -/
theorem createServiceAccount_idempotent (env : Env) (subscriptionID n : String)
    (w : World) (cfg : Config) (fs1 : FS)
    (hload : LoadConfig w.fs = (Except.ok cfg, fs1))
    (hc : cfg.clusterName ≠ "") (hr : cfg.resourceGroup ≠ "")
    (hcreds : (env (getCredsCmd subscriptionID cfg)).errText = none)
    (hshow : (env (identityClientIDCmd subscriptionID n cfg.resourceGroup)).errText = none) :
    (CreateServiceAccount env subscriptionID n w).1 = Except.ok () ∧
    (CreateServiceAccount env subscriptionID n
      (CreateServiceAccount env subscriptionID n w).2.1).1 = Except.ok () ∧
    (CreateServiceAccount env subscriptionID n
      (CreateServiceAccount env subscriptionID n w).2.1).2.1 =
      (CreateServiceAccount env subscriptionID n w).2.1 ∧
    (CreateServiceAccount env subscriptionID n
      (CreateServiceAccount env subscriptionID n w).2.1).2.2 =
      [getCredsCmd subscriptionID cfg,
       identityClientIDCmd subscriptionID n cfg.resourceGroup,
       checkSACmd n] := by
  have hrun1 := createServiceAccount_run env subscriptionID n w cfg fs1 hload hc hr hcreds hshow
  have hload1 : LoadConfig fs1 = (Except.ok cfg, fs1) := loadConfig_idem hload
  by_cases hcontains : strContains (kubectlGetSAOutput w.k8s n) n = true
  · rw [hrun1]
    simp only [hcontains, if_true]
    have hrun2 := createServiceAccount_run env subscriptionID n
      { fs := fs1, k8s := w.k8s } cfg fs1 hload1 hc hr hcreds hshow
    rw [hrun2]
    simp [hcontains]
  · rw [hrun1]
    simp only [hcontains, if_false, Bool.false_eq_true]
    have hsa : saLookup (applySA w.k8s n
        (trimSpace (env (identityClientIDCmd subscriptionID n cfg.resourceGroup)).output)) n =
        some (trimSpace (env (identityClientIDCmd subscriptionID n cfg.resourceGroup)).output) :=
      saLookup_applySA _ _ _
    have hcontains2 : strContains (kubectlGetSAOutput (applySA w.k8s n
        (trimSpace (env (identityClientIDCmd subscriptionID n cfg.resourceGroup)).output)) n) n = true := by
      simp [kubectlGetSAOutput, hsa, strContains_refl]
    have hrun2 := createServiceAccount_run env subscriptionID n
      { fs := fs1, k8s := applySA w.k8s n
          (trimSpace (env (identityClientIDCmd subscriptionID n cfg.resourceGroup)).output) }
      cfg fs1 hload1 hc hr hcreds hshow
    rw [hrun2]
    simp [hcontains2]

theorem createServiceAccount_idempotent_witness :
    (CreateServiceAccount (fun _ => { errText := none, output := "cid-123\n" }) "sub" "my-id"
        { fs := { dirExists := true, mkdirOk := false, mkdirErr := ""
                  file := some (marshalConfig
                    { emptyConfig with clusterName := "demo", resourceGroup := "demo-rg" }) }
          k8s := [] }).1 = Except.ok () ∧
    (CreateServiceAccount (fun _ => { errText := none, output := "cid-123\n" }) "sub" "my-id"
      (CreateServiceAccount (fun _ => { errText := none, output := "cid-123\n" }) "sub" "my-id"
        { fs := { dirExists := true, mkdirOk := false, mkdirErr := ""
                  file := some (marshalConfig
                    { emptyConfig with clusterName := "demo", resourceGroup := "demo-rg" }) }
          k8s := [] }).2.1).1 = Except.ok () ∧
    (CreateServiceAccount (fun _ => { errText := none, output := "cid-123\n" }) "sub" "my-id"
      (CreateServiceAccount (fun _ => { errText := none, output := "cid-123\n" }) "sub" "my-id"
        { fs := { dirExists := true, mkdirOk := false, mkdirErr := ""
                  file := some (marshalConfig
                    { emptyConfig with clusterName := "demo", resourceGroup := "demo-rg" }) }
          k8s := [] }).2.1).2.1 =
      (CreateServiceAccount (fun _ => { errText := none, output := "cid-123\n" }) "sub" "my-id"
        { fs := { dirExists := true, mkdirOk := false, mkdirErr := ""
                  file := some (marshalConfig
                    { emptyConfig with clusterName := "demo", resourceGroup := "demo-rg" }) }
          k8s := [] }).2.1 ∧
    (CreateServiceAccount (fun _ => { errText := none, output := "cid-123\n" }) "sub" "my-id"
      (CreateServiceAccount (fun _ => { errText := none, output := "cid-123\n" }) "sub" "my-id"
        { fs := { dirExists := true, mkdirOk := false, mkdirErr := ""
                  file := some (marshalConfig
                    { emptyConfig with clusterName := "demo", resourceGroup := "demo-rg" }) }
          k8s := [] }).2.1).2.2 =
      [getCredsCmd "sub" { emptyConfig with clusterName := "demo", resourceGroup := "demo-rg" },
       identityClientIDCmd "sub" "my-id" "demo-rg",
       checkSACmd "my-id"] :=
  createServiceAccount_idempotent (fun _ => { errText := none, output := "cid-123\n" })
    "sub" "my-id"
    { fs := { dirExists := true, mkdirOk := false, mkdirErr := ""
              file := some (marshalConfig
                { emptyConfig with clusterName := "demo", resourceGroup := "demo-rg" }) }
      k8s := [] }
    { emptyConfig with clusterName := "demo", resourceGroup := "demo-rg" }
    { dirExists := true, mkdirOk := false, mkdirErr := ""
      file := some (marshalConfig
        { emptyConfig with clusterName := "demo", resourceGroup := "demo-rg" }) }
    (by simp [LoadConfig, GetConfigDir, unmarshal_marshal])
    (by simp [emptyConfig]) (by simp [emptyConfig]) rfl rfl

/-- World state for the deployment dispatcher: the local config store
and the set of paths present on the local filesystem (consulted by
`os.Stat`); the cluster side is reached only through the command
oracle. -/
structure DeployWorld where
  fs : FS
  localFiles : List String
deriving DecidableEq, Repr

/-- The argv of the client-side dry-run apply issued by
`deploySpinAppYAML`. -/
def dryRunCmd (path : String) : Cmd :=
  ["kubectl", "apply", "--dry-run=client", "-f", path, "-o", "name"]

/-- The argv of the real apply issued by `deploySpinAppYAML`. -/
def applyCmd (path : String) : Cmd :=
  ["kubectl", "apply", "-f", path]

/-- The primary resource name `deploySpinAppYAML` extracts from the
dry-run output (the segment after the slash of the first line naming a
spinapp); it feeds only the progress message, never control flow. -/
def spinAppNameOf (output : String) : String :=
  match (output.splitOn "\n").find? (fun nm => strContains nm "spinapp") with
  | none => ""
  | some nm =>
    match nm.splitOn "/" with
    | _ :: second :: _ => second
    | _ => ""

/-- Model of `Service.deploySpinAppYAML`: a client-side dry-run apply
(whose output is only mined for a display name), then the real apply. -/
def deploySpinAppYAML (env : Env) (path : String) : Except String Unit × List Cmd :=
  let c1 := dryRunCmd path
  let r1 := env c1
  match r1.errText with
  | some e => (Except.error ("failed to parse YAML file: " ++ e ++ "\nOutput: " ++ r1.output), [c1])
  | none =>
    let c2 := applyCmd path
    let r2 := env c2
    match r2.errText with
    | some e => (Except.error ("failed to apply SpinApp: " ++ e ++ "\nOutput: " ++ r2.output), [c1, c2])
    | none => (Except.ok (), [c1, c2])

/-- Model of `Service.Deploy`: load the store, require a selected
cluster, require the manifest path to exist locally, fetch cluster
credentials, query the service account and require the output to name
it, then run the dry-run-and-apply pair. -/
def Deploy (env : Env) (subscriptionID path identityName : String) (w : DeployWorld) :
    Except String Unit × FS × List Cmd :=
  match LoadConfig w.fs with
  | (Except.error e, fs1) => (Except.error ("failed to load config: " ++ e), fs1, [])
  | (Except.ok cfg, fs1) =>
    if cfg.clusterName = "" ∨ cfg.resourceGroup = "" then
      (Except.error "no cluster is currently selected, use 'spin-azure cluster use' or 'spin-azure cluster create' first",
       fs1, [])
    else if path ∈ w.localFiles then
      let c1 := getCredsCmd subscriptionID cfg
      let r1 := env c1
      match r1.errText with
      | some e =>
        (Except.error ("failed to get Kubernetes credentials: " ++ e ++ "\nOutput: " ++ r1.output),
         fs1, [c1])
      | none =>
        let c2 := checkSACmd identityName
        let r2 := env c2
        match r2.errText with
        | some e =>
          (Except.error ("failed to check if service account exists: " ++ e ++ "\nOutput: " ++ r2.output),
           fs1, [c1, c2])
        | none =>
          if strContains r2.output identityName then
            match deploySpinAppYAML env path with
            | (Except.error e, tr) => (Except.error e, fs1, c1 :: c2 :: tr)
            | (Except.ok _, tr) => (Except.ok (), fs1, c1 :: c2 :: tr)
          else
            (Except.error ("service account '" ++ identityName ++
              "' not found in namespace 'default', please create it using 'spin-azure cluster use --service-account=" ++
              identityName ++ "' or 'spin-azure cluster create --service-account=" ++
              identityName ++ "'"), fs1, [c1, c2])
    else
      (Except.error ("SpinApp YAML file not found at " ++ path), fs1, [])

/-- C5 counterexample: with a cluster selected, the manifest present on
disk, and no matching service account, `deploy` fails on its third
precondition only after issuing two external commands (the credential
fetch and the service-account query), refuting the claim that every
violated precondition is reported with zero external calls. -/
theorem deploy_sa_precondition_external_calls :
    (Deploy (fun _ => { errText := none, output := "" }) "sub" "app.yaml" "my-id"
        { fs := { dirExists := true, mkdirOk := false, mkdirErr := ""
                  file := some (marshalConfig
                    { emptyConfig with clusterName := "demo", resourceGroup := "demo-rg" }) }
          localFiles := ["app.yaml"] }).1 =
      Except.error "service account 'my-id' not found in namespace 'default', please create it using 'spin-azure cluster use --service-account=my-id' or 'spin-azure cluster create --service-account=my-id'" ∧
    (Deploy (fun _ => { errText := none, output := "" }) "sub" "app.yaml" "my-id"
        { fs := { dirExists := true, mkdirOk := false, mkdirErr := ""
                  file := some (marshalConfig
                    { emptyConfig with clusterName := "demo", resourceGroup := "demo-rg" }) }
          localFiles := ["app.yaml"] }).2.2 =
      [getCredsCmd "sub" { emptyConfig with clusterName := "demo", resourceGroup := "demo-rg" },
       checkSACmd "my-id"] := by
  constructor <;> rfl

/-- C5 (amended): the first two preconditions of `deploy` (a cluster
selected in the store, the manifest file present locally) fail fast
with a descriptive message and zero external calls; the third (a
matching service account) fails with a descriptive message only after
the credential fetch and the service-account list query have been
issued, and issues nothing further (in particular, no apply). -/
theorem deploy_preconditions (env : Env) (subscriptionID path identityName : String)
    (w : DeployWorld) (cfg : Config) (fs1 : FS)
    (hload : LoadConfig w.fs = (Except.ok cfg, fs1)) :
    ((cfg.clusterName = "" ∨ cfg.resourceGroup = "") →
      Deploy env subscriptionID path identityName w =
        (Except.error "no cluster is currently selected, use 'spin-azure cluster use' or 'spin-azure cluster create' first",
         fs1, [])) ∧
    (cfg.clusterName ≠ "" → cfg.resourceGroup ≠ "" → path ∉ w.localFiles →
      Deploy env subscriptionID path identityName w =
        (Except.error ("SpinApp YAML file not found at " ++ path), fs1, [])) ∧
    (cfg.clusterName ≠ "" → cfg.resourceGroup ≠ "" → path ∈ w.localFiles →
      (env (getCredsCmd subscriptionID cfg)).errText = none →
      (env (checkSACmd identityName)).errText = none →
      strContains (env (checkSACmd identityName)).output identityName = false →
      Deploy env subscriptionID path identityName w =
        (Except.error ("service account '" ++ identityName ++
          "' not found in namespace 'default', please create it using 'spin-azure cluster use --service-account=" ++
          identityName ++ "' or 'spin-azure cluster create --service-account=" ++
          identityName ++ "'"), fs1,
         [getCredsCmd subscriptionID cfg, checkSACmd identityName])) := by
  refine ⟨?_, ?_, ?_⟩
  · intro hsel
    unfold Deploy
    simp [hload, hsel]
  · intro hc hr hpath
    unfold Deploy
    simp [hload, hc, hr, hpath]
  · intro hc hr hpath hcreds hcheck hmiss
    unfold Deploy
    simp [hload, hc, hr, hpath, hcreds, hcheck, hmiss]

theorem deploy_preconditions_witness :
    Deploy (fun _ => { errText := none, output := "" }) "sub" "missing.yaml" "my-id"
        { fs := { dirExists := true, mkdirOk := false, mkdirErr := ""
                  file := some (marshalConfig
                    { emptyConfig with clusterName := "demo", resourceGroup := "demo-rg" }) }
          localFiles := [] } =
      (Except.error ("SpinApp YAML file not found at " ++ "missing.yaml"),
       { dirExists := true, mkdirOk := false, mkdirErr := ""
         file := some (marshalConfig
           { emptyConfig with clusterName := "demo", resourceGroup := "demo-rg" }) }, []) :=
  (deploy_preconditions (fun _ => { errText := none, output := "" }) "sub" "missing.yaml" "my-id"
    { fs := { dirExists := true, mkdirOk := false, mkdirErr := ""
              file := some (marshalConfig
                { emptyConfig with clusterName := "demo", resourceGroup := "demo-rg" }) }
      localFiles := [] }
    { emptyConfig with clusterName := "demo", resourceGroup := "demo-rg" }
    { dirExists := true, mkdirOk := false, mkdirErr := ""
      file := some (marshalConfig
        { emptyConfig with clusterName := "demo", resourceGroup := "demo-rg" }) }
    (by simp [LoadConfig, GetConfigDir, unmarshal_marshal])).2.1
    (by simp [emptyConfig]) (by simp [emptyConfig]) (by simp)

/-- Model of Go `strings.HasPrefix s pre`. -/
def hasPrefixStr (s pre : String) : Bool :=
  listPrefixOf pre.data s.data

/-- Model of Go `strconv.Atoi`: an optional sign followed by at least
one decimal digit (the model ignores the 64-bit range check, which no
claim depends on). -/
def digitsVal (l : List Char) : Option Nat :=
  if l.isEmpty then none
  else if l.all Char.isDigit then
    some (l.foldl (fun acc c => acc * 10 + (c.toNat - 48)) 0)
  else none

/-- Optional-sign integer parsing for `--node-count`. -/
def atoi (s : String) : Option Int :=
  match s.data with
  | '+' :: rest => (digitsVal rest).map (fun n => (n : Int))
  | '-' :: rest => (digitsVal rest).map (fun n => -(n : Int))
  | l => (digitsVal l).map (fun n => (n : Int))

/-- Go map write `m[k] = v`, modelled on an insertion-ordered
association list (Go's map iteration order is unspecified; the claims
never depend on it). -/
def mapSet (m : List (String × String)) (k v : String) : List (String × String) :=
  match m with
  | [] => [(k, v)]
  | (k0, v0) :: t => if k0 = k then (k, v) :: t else (k0, v0) :: mapSet t k v

/-- The mutable locals of the `cluster create` handler's argument scan:
the five named flags and the `customArgs` map of unrecognized
`--flag value` pairs. -/
structure ScanState where
  name : String
  resourceGroup : String
  location : String
  nodeCount : Int
  nodeVMSize : String
  customArgs : List (String × String)
deriving DecidableEq, Repr

/-- The locals' values when the handler starts: cobra has already
stored each registered flag's default into its variable. -/
def initScanState : ScanState :=
  { name := "", resourceGroup := "", location := "eastus", nodeCount := 1
    nodeVMSize := "Standard_DS2_v2", customArgs := [] }

/-- Model of the argument-scanning loop of `newClusterCreateCommand`:
each known flag consumes the following token as its value when that
token exists and does not begin with `--` (the `--node-count` value is
additionally parsed, and dropped when unparseable); an unrecognized
token beginning with `--` is recorded in `customArgs` (with the
following token as value under the same proviso, otherwise the empty
string); any other token falls through every branch and is skipped.
The final token is handled by the one-element patterns, where no
following value can exist. -/
def scanClusterCreateArgs : List String → ScanState → ScanState
  | [], st => st
  | [arg], st =>
    if arg = "--name" ∨ arg = "-n" then st
    else if arg = "--resource-group" ∨ arg = "-g" then st
    else if arg = "--location" ∨ arg = "-l" then st
    else if arg = "--node-count" then st
    else if arg = "--node-vm-size" then st
    else if hasPrefixStr arg "--" then
      { st with customArgs := mapSet st.customArgs arg "" }
    else st
  | arg :: next :: rest2, st =>
    if arg = "--name" ∨ arg = "-n" then
      if hasPrefixStr next "--" then scanClusterCreateArgs (next :: rest2) st
      else scanClusterCreateArgs rest2 { st with name := next }
    else if arg = "--resource-group" ∨ arg = "-g" then
      if hasPrefixStr next "--" then scanClusterCreateArgs (next :: rest2) st
      else scanClusterCreateArgs rest2 { st with resourceGroup := next }
    else if arg = "--location" ∨ arg = "-l" then
      if hasPrefixStr next "--" then scanClusterCreateArgs (next :: rest2) st
      else scanClusterCreateArgs rest2 { st with location := next }
    else if arg = "--node-count" then
      if hasPrefixStr next "--" then scanClusterCreateArgs (next :: rest2) st
      else
        match atoi next with
        | some count => scanClusterCreateArgs rest2 { st with nodeCount := count }
        | none => scanClusterCreateArgs rest2 st
    else if arg = "--node-vm-size" then
      if hasPrefixStr next "--" then scanClusterCreateArgs (next :: rest2) st
      else scanClusterCreateArgs rest2 { st with nodeVMSize := next }
    else if hasPrefixStr arg "--" then
      if hasPrefixStr next "--" then
        scanClusterCreateArgs (next :: rest2) { st with customArgs := mapSet st.customArgs arg "" }
      else
        scanClusterCreateArgs rest2 { st with customArgs := mapSet st.customArgs arg next }
    else
      scanClusterCreateArgs (next :: rest2) st
termination_by l _ => l.length
decreasing_by all_goals simp [List.length_cons] <;> omega

/-- The pass-through argument list the handler later builds from
`customArgs` and forwards verbatim to `az aks create`. -/
def additionalArgsOf (st : ScanState) : List String :=
  st.customArgs.foldl
    (fun acc kv => if kv.2 = "" then acc ++ [kv.1] else acc ++ [kv.1, kv.2]) []

/-- C10: in the cluster create argument scanner, a token that does not
begin with `--` and is not one of the short flag aliases is silently
discarded whenever the scan reaches it as the current token (that is,
whenever it was not consumed as the value of the immediately preceding
flag token): the scan result — named flags, custom arguments, and hence
the forwarded pass-through list — is exactly that of the remaining
tokens, with no error reported. Consequently `--zones 1 2 3` records
only `("--zones", "1")` and forwards only `--zones 1`. -/
theorem scan_discards_bare_tokens :
    (∀ (t : String) (ys : List String) (st : ScanState),
      hasPrefixStr t "--" = false → t ≠ "-n" → t ≠ "-g" → t ≠ "-l" →
      scanClusterCreateArgs (t :: ys) st = scanClusterCreateArgs ys st) ∧
    scanClusterCreateArgs ["--zones", "1", "2", "3"] initScanState =
      { initScanState with customArgs := [("--zones", "1")] } ∧
    additionalArgsOf (scanClusterCreateArgs ["--zones", "1", "2", "3"] initScanState) =
      ["--zones", "1"] := by
  refine ⟨?_,
    by simp [scanClusterCreateArgs, initScanState, hasPrefixStr, listPrefixOf, mapSet],
    by simp [scanClusterCreateArgs, additionalArgsOf, initScanState, hasPrefixStr,
      listPrefixOf, mapSet]⟩
  intro t ys st hpre hn hg hl
  have h1 : ¬(t = "--name" ∨ t = "-n") := by
    rintro (h | h) <;> subst h
    · exact absurd hpre (by decide)
    · exact hn rfl
  have h2 : ¬(t = "--resource-group" ∨ t = "-g") := by
    rintro (h | h) <;> subst h
    · exact absurd hpre (by decide)
    · exact hg rfl
  have h3 : ¬(t = "--location" ∨ t = "-l") := by
    rintro (h | h) <;> subst h
    · exact absurd hpre (by decide)
    · exact hl rfl
  have h4 : t ≠ "--node-count" := by
    intro h; subst h; exact absurd hpre (by decide)
  have h5 : t ≠ "--node-vm-size" := by
    intro h; subst h; exact absurd hpre (by decide)
  cases ys with
  | nil => simp [scanClusterCreateArgs, h1, h2, h3, h4, h5, hpre]
  | cons a t2 => simp [scanClusterCreateArgs, h1, h2, h3, h4, h5, hpre]

theorem scan_discards_bare_tokens_witness :
    scanClusterCreateArgs ["stray", "--zones", "1"] initScanState =
      scanClusterCreateArgs ["--zones", "1"] initScanState :=
  scan_discards_bare_tokens.1 "stray" ["--zones", "1"] initScanState
    (by decide) (by decide) (by decide) (by decide)

end SpinAzure
